import Mathlib

/-!
Verification development for the weather-chatbot repository.

Shallow embedding of the core components described in the design spec:
the columnar weather-data parser (`src/weather_service.py`), the
geo/weather client functions, the topic-guard web middleware
(`src/web.py`), the historical-weather tool boundary (`src/tools.py`),
and the output-guard retry loop configured in `src/agent.py`.

Python `bytes`/`str` values are modelled as Lean `String`; Python floats
are modelled as `Rat` (they are only carried through, never computed
with); JSON values are modelled by the inductive `JVal`; Python `None`
returned by `dict.get` is modelled by `Option`.
-/

set_option autoImplicit false

namespace WeatherBot

/-! ## Python calendar dates (`datetime.date`) -/

/-- Model of a Python `datetime.date` value: a Gregorian calendar date. -/
structure PyDate where
  year : Nat
  month : Nat
  day : Nat
deriving DecidableEq, Repr

/-- Gregorian leap-year test, as Python's `calendar.isleap`. -/
def isLeap (y : Nat) : Bool :=
  y % 4 = 0 && (y % 100 != 0 || y % 400 = 0)

/-- Number of days in a month of a given year. -/
def daysInMonth (y m : Nat) : Nat :=
  if m = 2 then (if isLeap y then 29 else 28)
  else if m = 4 || m = 6 || m = 9 || m = 11 then 30
  else 31

/-- Numeric value of a decimal digit character. -/
def digVal (c : Char) : Nat := c.toNat - 48

/-- Decimal digit character for a value below 10. -/
def digitChar (n : Nat) : Char := Char.ofNat (48 + n)

/-- Model of `datetime.date.fromisoformat` on the `YYYY-MM-DD` calendar-date
format (the format the Open-Meteo API and the agent tools exchange).
Malformed strings and out-of-range components yield `Except.error`,
modelling Python's `ValueError`. -/
def PyDate.fromisoformat (s : String) : Except String PyDate :=
  match s.toList with
  | [y1, y2, y3, y4, '-', m1, m2, '-', d1, d2] =>
    if y1.isDigit && y2.isDigit && y3.isDigit && y4.isDigit &&
        m1.isDigit && m2.isDigit && d1.isDigit && d2.isDigit then
      let y := ((digVal y1 * 10 + digVal y2) * 10 + digVal y3) * 10 + digVal y4
      let m := digVal m1 * 10 + digVal m2
      let d := digVal d1 * 10 + digVal d2
      if 1 ≤ y && 1 ≤ m && m ≤ 12 && 1 ≤ d && d ≤ daysInMonth y m then
        Except.ok ⟨y, m, d⟩
      else
        Except.error ("ValueError: invalid date " ++ s)
    else
      Except.error ("ValueError: invalid isoformat string " ++ s)
  | _ => Except.error ("ValueError: invalid isoformat string " ++ s)

/-- Model of `datetime.date.isoformat`: the `%04d-%02d-%02d` rendering of a
date (years of in-range Python dates have at most four digits). -/
def PyDate.isoformat (d : PyDate) : String :=
  String.mk
    [digitChar (d.year / 1000 % 10), digitChar (d.year / 100 % 10),
     digitChar (d.year / 10 % 10), digitChar (d.year % 10), '-',
     digitChar (d.month / 10 % 10), digitChar (d.month % 10), '-',
     digitChar (d.day / 10 % 10), digitChar (d.day % 10)]

/-! ## Python timestamps (`datetime.datetime`) -/

/-- Model of a Python `datetime.datetime` value (no timezone offset, as the
Open-Meteo payloads carry naive local timestamps). -/
structure PyDateTime where
  date : PyDate
  hour : Nat
  minute : Nat
  second : Nat
deriving DecidableEq, Repr

/-- Parse the time-of-day tail of an ISO timestamp: empty (midnight),
`HH:MM`, or `HH:MM:SS`. -/
def parseTimeTail (cs : List Char) : Except String (Nat × Nat × Nat) :=
  match cs with
  | [] => Except.ok (0, 0, 0)
  | [h1, h2, ':', n1, n2] =>
    if h1.isDigit && h2.isDigit && n1.isDigit && n2.isDigit then
      let h := digVal h1 * 10 + digVal h2
      let n := digVal n1 * 10 + digVal n2
      if h ≤ 23 && n ≤ 59 then Except.ok (h, n, 0)
      else Except.error "ValueError: time out of range"
    else Except.error "ValueError: invalid isoformat string"
  | [h1, h2, ':', n1, n2, ':', s1, s2] =>
    if h1.isDigit && h2.isDigit && n1.isDigit && n2.isDigit && s1.isDigit && s2.isDigit then
      let h := digVal h1 * 10 + digVal h2
      let n := digVal n1 * 10 + digVal n2
      let s := digVal s1 * 10 + digVal s2
      if h ≤ 23 && n ≤ 59 && s ≤ 59 then Except.ok (h, n, s)
      else Except.error "ValueError: time out of range"
    else Except.error "ValueError: invalid isoformat string"
  | _ => Except.error "ValueError: invalid isoformat string"

/-- Model of `datetime.datetime.fromisoformat` on the formats the Open-Meteo
API emits: a calendar date, optionally followed by `T` or a space and a
time of day. -/
def PyDateTime.fromisoformat (s : String) : Except String PyDateTime :=
  match s.toList with
  | y1 :: y2 :: y3 :: y4 :: '-' :: m1 :: m2 :: '-' :: d1 :: d2 :: rest =>
    match PyDate.fromisoformat (String.mk [y1, y2, y3, y4, '-', m1, m2, '-', d1, d2]) with
    | Except.error e => Except.error e
    | Except.ok dt =>
      match rest with
      | [] => Except.ok ⟨dt, 0, 0, 0⟩
      | c :: tail =>
        if c = 'T' || c = ' ' then
          match parseTimeTail tail with
          | Except.error e => Except.error e
          | Except.ok (h, n, s) => Except.ok ⟨dt, h, n, s⟩
        else Except.error "ValueError: invalid isoformat string"
  | _ => Except.error "ValueError: invalid isoformat string"

/-! ## JSON values and columnar payloads -/

/-- Model of a JSON scalar value as found in Open-Meteo column arrays.
Python `None`/JSON `null` inside an array is `JVal.null`. -/
inductive JVal where
  | null
  | num (q : Rat)
  | str (s : String)
  | bool (b : Bool)
deriving DecidableEq, Repr

/-- A column-oriented payload: a finite mapping from field name to an array
of JSON values. `none` models both an absent key and a key mapped to JSON
`null` (Python's `dict.get` returns `None` for both as far as the parser's
`is None` test is concerned). -/
def RawCols : Type := String → Option (List JVal)

/-- The empty columnar payload (Python `{}`). -/
def emptyRaw : RawCols := fun _ => none

/-! ## Columnar parser (`src/weather_service.py`) -/

/-- Embedding of `_get_at(data, key, index)`: safely get the value at an
index from a column array, returning null if the column is missing (or
JSON null) or the index is past its end. -/
def _get_at (data : RawCols) (key : String) (index : Nat) : JVal :=
  match data key with
  | none => JVal.null
  | some col => if h : index < col.length then col.get ⟨index, h⟩ else JVal.null

/-- Embedding of the `DailyWeather` record (`src/models.py`): a date plus
nine independently nullable measurements. Measurement values are carried
as the JSON values found in the columns. -/
structure DailyWeather where
  date : PyDate
  temperature_2m_max : JVal
  temperature_2m_min : JVal
  sunrise : JVal
  sunset : JVal
  sunshine_duration : JVal
  daylight_duration : JVal
  wind_speed_10m_max : JVal
  precipitation_sum : JVal
  weather_code : JVal
deriving DecidableEq, Repr

/-- Embedding of the `HourlyWeather` record (`src/models.py`). -/
structure HourlyWeather where
  time : PyDateTime
  temperature_2m : JVal
  wind_speed_10m : JVal
  precipitation : JVal
  weather_code : JVal
  is_day : JVal
deriving DecidableEq, Repr

/-- Parse one entry of the daily `time` column with `date.fromisoformat`.
A non-string entry raises in Python (`TypeError`), modelled as an error. -/
def parseDateVal (v : JVal) : Except String PyDate :=
  match v with
  | JVal.str s => PyDate.fromisoformat s
  | _ => Except.error "TypeError: fromisoformat argument must be str"

/-- Parse one entry of the hourly `time` column with
`datetime.fromisoformat`. -/
def parseDateTimeVal (v : JVal) : Except String PyDateTime :=
  match v with
  | JVal.str s => PyDateTime.fromisoformat s
  | _ => Except.error "TypeError: fromisoformat argument must be str"

/-- The loop body of `parse_daily_data`: build one `DailyWeather` row per
`time` entry, at consecutive indices starting from `i`. -/
def parse_daily_rows (raw : RawCols) : List JVal → Nat → Except String (List DailyWeather)
  | [], _ => Except.ok []
  | d :: rest, i =>
    match parseDateVal d with
    | Except.error e => Except.error e
    | Except.ok dt =>
      match parse_daily_rows raw rest (i + 1) with
      | Except.error e => Except.error e
      | Except.ok rows =>
        Except.ok
          ({ date := dt
             temperature_2m_max := _get_at raw "temperature_2m_max" i
             temperature_2m_min := _get_at raw "temperature_2m_min" i
             sunrise := _get_at raw "sunrise" i
             sunset := _get_at raw "sunset" i
             sunshine_duration := _get_at raw "sunshine_duration" i
             daylight_duration := _get_at raw "daylight_duration" i
             wind_speed_10m_max := _get_at raw "wind_speed_10m_max" i
             precipitation_sum := _get_at raw "precipitation_sum" i
             weather_code := _get_at raw "weather_code" i } :: rows)

/-- Embedding of `parse_daily_data(raw)`: `raw.get("time", [])`, early
return `[]` on an empty or absent time array, then one row per entry. -/
def parse_daily_data (raw : RawCols) : Except String (List DailyWeather) :=
  let dates := (raw "time").getD []
  if dates.isEmpty then Except.ok []
  else parse_daily_rows raw dates 0

/-- The loop body of `parse_hourly_data`. -/
def parse_hourly_rows (raw : RawCols) : List JVal → Nat → Except String (List HourlyWeather)
  | [], _ => Except.ok []
  | t :: rest, i =>
    match parseDateTimeVal t with
    | Except.error e => Except.error e
    | Except.ok tm =>
      match parse_hourly_rows raw rest (i + 1) with
      | Except.error e => Except.error e
      | Except.ok rows =>
        Except.ok
          ({ time := tm
             temperature_2m := _get_at raw "temperature_2m" i
             wind_speed_10m := _get_at raw "wind_speed_10m" i
             precipitation := _get_at raw "precipitation" i
             weather_code := _get_at raw "weather_code" i
             is_day := _get_at raw "is_day" i } :: rows)

/-- Embedding of `parse_hourly_data(raw)`. -/
def parse_hourly_data (raw : RawCols) : Except String (List HourlyWeather) :=
  let times := (raw "time").getD []
  if times.isEmpty then Except.ok []
  else parse_hourly_rows raw times 0

/-- The nine named daily measurement fields of `DailyWeather`. -/
inductive DailyField where
  | temperature_2m_max
  | temperature_2m_min
  | sunrise
  | sunset
  | sunshine_duration
  | daylight_duration
  | wind_speed_10m_max
  | precipitation_sum
  | weather_code
deriving DecidableEq, Repr

/-- The column key of a daily field. -/
def DailyField.key : DailyField → String
  | temperature_2m_max => "temperature_2m_max"
  | temperature_2m_min => "temperature_2m_min"
  | sunrise => "sunrise"
  | sunset => "sunset"
  | sunshine_duration => "sunshine_duration"
  | daylight_duration => "daylight_duration"
  | wind_speed_10m_max => "wind_speed_10m_max"
  | precipitation_sum => "precipitation_sum"
  | weather_code => "weather_code"

/-- Project a daily field out of a `DailyWeather` row. -/
def DailyWeather.field (w : DailyWeather) : DailyField → JVal
  | DailyField.temperature_2m_max => w.temperature_2m_max
  | DailyField.temperature_2m_min => w.temperature_2m_min
  | DailyField.sunrise => w.sunrise
  | DailyField.sunset => w.sunset
  | DailyField.sunshine_duration => w.sunshine_duration
  | DailyField.daylight_duration => w.daylight_duration
  | DailyField.wind_speed_10m_max => w.wind_speed_10m_max
  | DailyField.precipitation_sum => w.precipitation_sum
  | DailyField.weather_code => w.weather_code

/-- The five named hourly measurement fields of `HourlyWeather`. -/
inductive HourlyField where
  | temperature_2m
  | wind_speed_10m
  | precipitation
  | weather_code
  | is_day
deriving DecidableEq, Repr

/-- The column key of an hourly field. -/
def HourlyField.key : HourlyField → String
  | temperature_2m => "temperature_2m"
  | wind_speed_10m => "wind_speed_10m"
  | precipitation => "precipitation"
  | weather_code => "weather_code"
  | is_day => "is_day"

/-- Project an hourly field out of an `HourlyWeather` row. -/
def HourlyWeather.field (w : HourlyWeather) : HourlyField → JVal
  | HourlyField.temperature_2m => w.temperature_2m
  | HourlyField.wind_speed_10m => w.wind_speed_10m
  | HourlyField.precipitation => w.precipitation
  | HourlyField.weather_code => w.weather_code
  | HourlyField.is_day => w.is_day

/-! ## HTTP transport model -/

/-- The outcome of an `httpx` GET as observed by the caller: either the
request itself failed (connection error, timeout, ...) before a response
existed, or a response with a status code and a parsed JSON body arrived. -/
inductive HttpOutcome (β : Type) where
  | netError (msg : String)
  | response (status : Nat) (body : β)

/-- An exception escaping a service-layer call, classified by kind:
`transport` models `httpx.HTTPError` (network errors and
`HTTPStatusError` from `raise_for_status`), `parseFail` models a
`ValueError`/`TypeError` raised while parsing the response payload. -/
inductive SvcError where
  | transport (msg : String)
  | parseFail (msg : String)
deriving DecidableEq, Repr

/-- Embedding of `httpx.Response.raise_for_status`: raises `HTTPStatusError`
for any response whose status code is not a 2xx success code. -/
def raise_for_status (status : Nat) : Except SvcError Unit :=
  if 200 ≤ status && status < 300 then Except.ok ()
  else Except.error (SvcError.transport "HTTPStatusError")

/-! ## Geo/weather client (`src/weather_service.py`) -/

/-- Embedding of the `GeoLocation` model (`src/models.py`). -/
structure GeoLocation where
  latitude : Rat
  longitude : Rat
  timezone : String
  name : String
  country : Option String
deriving DecidableEq, Repr

/-- One candidate in the geocoding API's `results` array. `latitude`,
`longitude` and `name` are accessed with `r[...]` in the source (required);
`timezone` and `country` with `r.get(...)` (optional). -/
structure GeoItem where
  latitude : Rat
  longitude : Rat
  timezone : Option String
  name : String
  country : Option String
deriving DecidableEq, Repr

/-- The JSON body of a geocoding response. `results = none` models an
absent (or JSON-null) `results` key. -/
structure GeoBody where
  results : Option (List GeoItem)
deriving DecidableEq, Repr

/-- Embedding of `geocode(client, city_name)` as a function of the HTTP
outcome of the single geocoding GET. A raised exception is `Except.error`;
`Except.ok none` is the not-found result (`results` absent or empty, both
falsy in `if not results`). -/
def geocode (resp : HttpOutcome GeoBody) : Except SvcError (Option GeoLocation) :=
  match resp with
  | HttpOutcome.netError e => Except.error (SvcError.transport e)
  | HttpOutcome.response status body =>
    match raise_for_status status with
    | Except.error e => Except.error e
    | Except.ok _ =>
      match body.results with
      | none => Except.ok none
      | some [] => Except.ok none
      | some (r :: _) =>
        Except.ok (some
          { latitude := r.latitude
            longitude := r.longitude
            timezone := r.timezone.getD "UTC"
            name := r.name
            country := r.country })

/-- Embedding of the `WeatherResponse` model (`src/models.py`). -/
structure WeatherResponse where
  latitude : Rat
  longitude : Rat
  timezone : String
  daily : List DailyWeather
  hourly : List HourlyWeather
deriving DecidableEq, Repr

/-- The JSON body of a forecast/archive response. `latitude` and
`longitude` are accessed with `data[...]` (required); `timezone`,
`daily` and `hourly` with `data.get(...)` (optional, `daily`/`hourly`
defaulting to the empty mapping). -/
structure WeatherBody where
  latitude : Rat
  longitude : Rat
  timezone : Option String
  daily : Option RawCols
  hourly : Option RawCols

/-- Shared response handling of `get_forecast` and
`get_historical_weather`: `raise_for_status`, then build a
`WeatherResponse` with the caller's `timezone` substituted when the body
omits one, and the columnar payloads parsed. -/
def parseWeatherOutcome (resp : HttpOutcome WeatherBody) (timezone : String) :
    Except SvcError WeatherResponse :=
  match resp with
  | HttpOutcome.netError e => Except.error (SvcError.transport e)
  | HttpOutcome.response status body =>
    match raise_for_status status with
    | Except.error e => Except.error e
    | Except.ok _ =>
      match parse_daily_data (body.daily.getD emptyRaw) with
      | Except.error e => Except.error (SvcError.parseFail e)
      | Except.ok daily =>
        match parse_hourly_data (body.hourly.getD emptyRaw) with
        | Except.error e => Except.error (SvcError.parseFail e)
        | Except.ok hourly =>
          Except.ok
            { latitude := body.latitude
              longitude := body.longitude
              timezone := body.timezone.getD timezone
              daily := daily
              hourly := hourly }

/-- Embedding of `get_forecast(client, latitude, longitude, timezone,
forecast_days)` as a function of the HTTP outcome of its GET. -/
def get_forecast (resp : HttpOutcome WeatherBody) (timezone : String) :
    Except SvcError WeatherResponse :=
  parseWeatherOutcome resp timezone

/-- The daily measurement names requested from the API (`DAILY_PARAMS`). -/
def DAILY_PARAMS : String :=
  "temperature_2m_max,temperature_2m_min,sunrise,sunset,sunshine_duration,daylight_duration,wind_speed_10m_max,precipitation_sum,weather_code"

/-- The hourly measurement names requested from the API (`HOURLY_PARAMS`). -/
def HOURLY_PARAMS : String :=
  "temperature_2m,wind_speed_10m,precipitation,weather_code,is_day"

/-- The query parameters of the archive-API GET issued by
`get_historical_weather`. -/
structure HistQuery where
  latitude : Rat
  longitude : Rat
  timezone : String
  daily : String
  hourly : String
  start_date : String
  end_date : String
deriving DecidableEq, Repr

/-- Embedding of `get_historical_weather(...)`: the outbound archive query
built from the arguments (with `start_date.isoformat()` /
`end_date.isoformat()`), paired with the parse of the HTTP outcome. -/
def get_historical_weather (latitude longitude : Rat) (timezone : String)
    (start_date end_date : PyDate) (resp : HttpOutcome WeatherBody) :
    HistQuery × Except SvcError WeatherResponse :=
  ({ latitude := latitude
     longitude := longitude
     timezone := timezone
     daily := DAILY_PARAMS
     hourly := HOURLY_PARAMS
     start_date := start_date.isoformat
     end_date := end_date.isoformat },
   parseWeatherOutcome resp timezone)

/-! ## Historical-weather tool boundary (`src/tools.py`) -/

/-- Result of an agent tool call: a `ModelRetry` raised as correctable
feedback, an uncaught exception propagating out of the tool, or the
tool's return value. -/
inductive ToolResult (α : Type) where
  | modelRetry (msg : String)
  | raised (msg : String)
  | ok (value : α)
deriving DecidableEq, Repr

/-- Embedding of the tool `get_historical_weather_data(...)`: parse the
two date strings at the boundary (a `ValueError` becomes a `ModelRetry`),
then call the service. The first component is the trace of outbound
archive requests issued during the call — empty when the dates fail to
parse, since the error is raised before any remote call. An
`httpx.HTTPError` from the service (network failure or
`raise_for_status`) also becomes a `ModelRetry`; a payload parse failure
is not caught and propagates. -/
def get_historical_weather_data (latitude longitude : Rat) (timezone : String)
    (start_date end_date : String) (resp : HttpOutcome WeatherBody) :
    List HistQuery × ToolResult WeatherResponse :=
  match PyDate.fromisoformat start_date with
  | Except.error e => ([], ToolResult.modelRetry ("Invalid date format, use YYYY-MM-DD: " ++ e))
  | Except.ok start =>
    match PyDate.fromisoformat end_date with
    | Except.error e => ([], ToolResult.modelRetry ("Invalid date format, use YYYY-MM-DD: " ++ e))
    | Except.ok «end» =>
      match get_historical_weather latitude longitude timezone start «end» resp with
      | (q, Except.error (SvcError.transport e)) =>
        ([q], ToolResult.modelRetry ("Historical weather API failed: " ++ e))
      | (q, Except.error (SvcError.parseFail e)) => ([q], ToolResult.raised e)
      | (q, Except.ok w) => ([q], ToolResult.ok w)

/-! ## Topic classifier and output guard (`src/agent.py`) -/

/-- Embedding of the `TopicCheck` guard-agent output model. -/
structure TopicCheck where
  is_weather_related : Bool
  reason : String
deriving DecidableEq, Repr

/-- Outcome of one output-validator call: the validated data, or a
`ModelRetry` raised with corrective feedback. -/
inductive ValidationResult where
  | ok (data : String)
  | modelRetry (feedback : String)
deriving DecidableEq, Repr

/-- Embedding of `validate_weather_topic(ctx, data)`: run the guard agent
on the draft and either approve it or raise `ModelRetry` with the
verdict's justification folded into corrective feedback. The classifier
(the guard agent's model call) is passed as a function. -/
def validate_weather_topic (classify : String → TopicCheck) (data : String) :
    ValidationResult :=
  let result := classify ("Is this response about weather/climate?\n\n" ++ data)
  if result.is_weather_related then ValidationResult.ok data
  else
    ValidationResult.modelRetry
      ("Your response is off-topic (" ++ result.reason ++ "). " ++
       "You must only answer weather and climate questions. " ++
       "If the user asked about something else, politely decline and suggest a weather question.")

/-- Terminal outcome of a guarded Responder run: an approved draft, or a
terminal hard failure after the retry budget is exhausted. -/
inductive GuardOutcome where
  | approved (text : String)
  | exhausted (feedback : String)
deriving DecidableEq, Repr

/-- Whether a guard outcome is the terminal hard failure. -/
def GuardOutcome.isExhausted : GuardOutcome → Bool
  | approved _ => false
  | exhausted _ => true

/-- Modelled from the spec: the bounded draft–classify–retry loop of the
Output Guard (§4.5), which pydantic-ai's `Agent.run` implements around the
`validate_weather_topic` output validator; that loop is library code not
present in the repository sources. `draft n` is the Responder's n-th
candidate text; each rejected draft consumes one unit of the remaining
retry budget, and a rejection with no budget left is the terminal
`exhausted` failure. Returns the outcome and the number of draft attempts
made. -/
def runGuardAux (draft : Nat → String) (validate : String → ValidationResult) :
    Nat → Nat → GuardOutcome × Nat
  | retriesLeft, attempt =>
    match validate (draft attempt) with
    | ValidationResult.ok s => (GuardOutcome.approved s, attempt + 1)
    | ValidationResult.modelRetry fb =>
      match retriesLeft with
      | 0 => (GuardOutcome.exhausted fb, attempt + 1)
      | n + 1 => runGuardAux draft validate n (attempt + 1)

/-- The output-validator retry budget configured on the agent
(`retries=2` in `src/agent.py`). -/
def OUTPUT_RETRIES : Nat := 2

/-- Modelled from the spec: a full guarded Responder run — the Output
Guard loop started with the configured retry budget and the guard agent
as classifier. -/
def runOutputGuard (draft : Nat → String) (classify : String → TopicCheck) :
    GuardOutcome × Nat :=
  runGuardAux draft (validate_weather_topic classify) OUTPUT_RETRIES 0

/-! ## Topic-guard web middleware (`src/web.py`) -/

/-- The fixed refusal text (`REFUSAL_MESSAGE`). -/
def REFUSAL_MESSAGE : String :=
  "I\x27m a weather and climate assistant, so I can only help with weather-related questions. " ++
  "Try asking me about forecasts, temperature, historical climate data, or atmospheric conditions " ++
  "for any location worldwide!"

/-- The Vercel AI data-stream response headers (`_SSE_HEADERS`). -/
def sseHeaders : List (String × String) :=
  [("content-type", "text/event-stream"), ("x-vercel-ai-ui-message-stream", "v1")]

/-- Lower-case hexadecimal digit character for a value below 16. -/
def hexChar (n : Nat) : Char :=
  if n < 10 then digitChar n else Char.ofNat (87 + n)

/-- Model of `json.dumps` escaping of one character (default
`ensure_ascii=True` settings), for characters of the Basic Multilingual
Plane: quote, backslash and the short control escapes get a backslash
form, other control and non-ASCII characters become `\uXXXX`, everything
else is emitted verbatim. -/
def jsonEscapeChar (c : Char) : List Char :=
  if c = '"' then ['\\', '"']
  else if c = '\\' then ['\\', '\\']
  else if c = '\n' then ['\\', 'n']
  else if c = '\t' then ['\\', 't']
  else if c = '\r' then ['\\', 'r']
  else if c = '\x08' then ['\\', 'b']
  else if c = '\x0c' then ['\\', 'f']
  else if c.toNat < 32 || 126 < c.toNat then
    ['\\', 'u', hexChar (c.toNat / 4096 % 16), hexChar (c.toNat / 256 % 16),
     hexChar (c.toNat / 16 % 16), hexChar (c.toNat % 16)]
  else [c]

/-- Model of a `json.dumps` string literal: the escaped characters between
double quotes. -/
def jsonStr (s : String) : String :=
  "\"" ++ String.mk (s.toList.flatMap jsonEscapeChar) ++ "\""

/-- The event payloads of `build_refusal_sse(text)`: two hand-written
literals, three `json.dumps` objects (default separators are a comma and
a colon each followed by a space), two more literals and the terminal
sentinel. `msg_id` models the generated `uuid4()` identifier. -/
def build_refusal_events (msg_id text : String) : List String :=
  ["\x7b\"type\":\"start\"\x7d",
   "\x7b\"type\":\"start-step\"\x7d",
   "\x7b\"type\": \"text-start\", \"id\": " ++ jsonStr msg_id ++ "\x7d",
   "\x7b\"type\": \"text-delta\", \"id\": " ++ jsonStr msg_id ++ ", \"delta\": " ++ jsonStr text ++ "\x7d",
   "\x7b\"type\": \"text-end\", \"id\": " ++ jsonStr msg_id ++ "\x7d",
   "\x7b\"type\":\"finish-step\"\x7d",
   "\x7b\"type\":\"finish\",\"finishReason\":\"stop\"\x7d",
   "[DONE]"]

/-- Embedding of `build_refusal_sse(text)`: each event framed as an SSE
`data:` line followed by a blank line, all concatenated. -/
def build_refusal_sse (msg_id text : String) : String :=
  String.join ((build_refusal_events msg_id text).map (fun e => "data: " ++ e ++ "\n\n"))

/-- One typed part of a chat message that is itself a JSON object; `type`
and `text` model `part.get("type")` and `part.get("text", "")`, a `none`
field modelling an absent key (or, for `type`, any non-string value,
which compares unequal to `"text"` exactly like an absent one). -/
structure MsgPart where
  type : Option String
  text : Option String
deriving DecidableEq, Repr

/-- One entry of an iterated `parts` value. `junk` is an entry that is
not a JSON object: `part.get` on it raises `AttributeError`, which the
source's `except (json.JSONDecodeError, KeyError, TypeError)` clause
does not catch. A string or object `parts` value also iterates — as
characters or keys — every element of which is such a `junk` entry. -/
inductive PartEntry where
  | junk
  | part (p : MsgPart)
deriving DecidableEq, Repr

/-- The `msg.get("parts", [])` value of a user message. `notSeq` is a
value the `for` loop cannot iterate (number, boolean, null): it raises
`TypeError`, which the source catches, so the whole extraction returns
`None`. An absent `parts` key defaults to `[]`, modelled as `seq []`. -/
inductive PartsVal where
  | notSeq
  | seq (items : List PartEntry)
deriving DecidableEq, Repr

/-- One JSON-object message of the history; `role` models
`msg.get("role")` (a non-string role compares unequal to `"user"`
exactly like an absent one, and is quotiented into `none`). -/
structure ChatMessage where
  role : Option String
  parts : PartsVal
deriving DecidableEq, Repr

/-- One entry of the iterated `messages` value: a JSON-object message,
or `junk` — a non-object entry on which `msg.get` raises
`AttributeError` (uncaught by the source). -/
inductive MsgEntry where
  | junk
  | msg (m : ChatMessage)
deriving DecidableEq, Repr

/-- The `data.get("messages", [])` value. `notSeq` is a value
`reversed()` rejects with `TypeError` (caught, so extraction returns
`None`); `seq` lists the entries in source order (a string or object
value also reverses, as characters or keys, all of them `junk`
entries); an absent key defaults to `[]` = `seq []`. -/
inductive MessagesVal where
  | notSeq
  | seq (entries : List MsgEntry)
deriving DecidableEq, Repr

/-- The decoded JSON body of a chat request. `nonDict` is a valid JSON
document whose top level is not an object: `data.get` on it raises
`AttributeError`, which the source does not catch. -/
inductive BodyJson where
  | nonDict
  | dict (messages : MessagesVal)
deriving DecidableEq, Repr

/-- The inner part loop of `extract_last_user_text` over an iterated
`parts` value: the first `text`-typed part's text (its `text` key
defaulted to `""`), `Except.ok none` when the loop exhausts without a
text part, and an uncaught `AttributeError` on a non-object entry. -/
def firstTextPart : List PartEntry → Except String (Option String)
  | [] => Except.ok none
  | PartEntry.junk :: _ => Except.error "AttributeError"
  | PartEntry.part p :: rest =>
    if p.type = some "text" then Except.ok (some (p.text.getD ""))
    else firstTextPart rest

/-- The message loop of `extract_last_user_text`, over the reversed
entry list. The first user-role message with a text part yields that
part's text; a user message whose `parts` is not iterable ends the whole
extraction with `None` (`TypeError`, caught); a non-object entry raises
`AttributeError` (uncaught); a user message without text parts lets the
loop continue to earlier messages. -/
def extractFromReversed : List MsgEntry → Except String (Option String)
  | [] => Except.ok none
  | MsgEntry.junk :: _ => Except.error "AttributeError"
  | MsgEntry.msg m :: rest =>
    if m.role = some "user" then
      match m.parts with
      | PartsVal.notSeq => Except.ok none
      | PartsVal.seq items =>
        match firstTextPart items with
        | Except.error e => Except.error e
        | Except.ok (some t) => Except.ok (some t)
        | Except.ok none => extractFromReversed rest
    else extractFromReversed rest

/-- Embedding of `extract_last_user_text(body)` as a function of the
decoded body. A `none` input models a body on which `json.loads` raises
`JSONDecodeError`, which the source catches and maps to `None`
(`Except.ok none`); a `TypeError` during the traversal is likewise
caught to `None`; but an `AttributeError` — `.get` on a non-object — is
not in the catch tuple and propagates out (`Except.error`). -/
def extract_last_user_text (body : Option BodyJson) : Except String (Option String) :=
  match body with
  | none => Except.ok none
  | some BodyJson.nonDict => Except.error "AttributeError"
  | some (BodyJson.dict MessagesVal.notSeq) => Except.ok none
  | some (BodyJson.dict (MessagesVal.seq entries)) => extractFromReversed entries.reverse

/-- One ASGI receive message, with `body` and `more_body` as read by the
middleware's buffering loop (`message.get("body", b"")`,
`message.get("more_body", False)`). -/
structure AsgiMessage where
  type : String
  body : String
  more_body : Bool
deriving DecidableEq, Repr

/-- The buffering loop of `_handle_chat`: concatenate frame bodies up to
and including the first frame with `more_body` false. -/
def bufferBody : List AsgiMessage → String
  | [] => ""
  | m :: rest => if m.more_body then m.body ++ bufferBody rest else m.body

/-- One ASGI send event emitted by the middleware. -/
inductive SendEvent where
  | responseStart (status : Nat) (headers : List (String × String))
  | responseBody (body : String)
deriving DecidableEq, Repr

/-- Observable outcome of `_handle_chat` on a chat request: the refusal
response was sent and the inner app never invoked, or the request was
passed through to the inner app with the buffered body replayed, or an
uncaught exception escaped the middleware (neither refusal nor
pass-through; the server surfaces an error). -/
inductive ChatOutcome where
  | refused (sends : List SendEvent)
  | passedThrough (replayedBody : String)
  | crashed (msg : String)
deriving DecidableEq, Repr

/-- Embedding of `TopicGuardMiddleware._handle_chat`: buffer the body,
extract the last user text, and — when non-empty text was extracted and
the guard agent classifies it off-topic — send the refusal and return
without invoking the inner app; when extraction returns `None` or the
empty string, or the guard-agent call raises (the `try` around
`guard_agent.run`), pass the buffered body through to the inner app; and
when extraction itself raises (`AttributeError`, which nothing in
`_handle_chat` catches) the exception escapes the middleware. `decode`
models `json.loads`; `classify` models `guard_agent.run`, with
`Except.error` a raised exception; `msg_id` models the `uuid4()` of
`build_refusal_sse`. -/
def handle_chat (decode : String → Option BodyJson)
    (classify : String → Except String TopicCheck) (msg_id : String)
    (frames : List AsgiMessage) : ChatOutcome :=
  let body := bufferBody frames
  match extract_last_user_text (decode body) with
  | Except.error e => ChatOutcome.crashed e
  | Except.ok (some t) =>
    if t = "" then ChatOutcome.passedThrough body
    else
      match classify ("Is this user question about weather, climate, or atmospheric conditions?\n\n" ++ t) with
      | Except.ok check =>
        if check.is_weather_related then ChatOutcome.passedThrough body
        else
          ChatOutcome.refused
            [SendEvent.responseStart 200 sseHeaders,
             SendEvent.responseBody (build_refusal_sse msg_id REFUSAL_MESSAGE)]
      | Except.error _ => ChatOutcome.passedThrough body
  | Except.ok none => ChatOutcome.passedThrough body

/-- Embedding of the `replay_receive` closure: its state is the
`body_sent` flag plus the position in the underlying receive stream
(`receive` is the original ASGI receive, already drained of the request
body). The first call returns the full buffered body in a single
`http.request` message with `more_body` false; every later call delegates
to the underlying receive. -/
def replay_receive (body : String) (receive : Nat → AsgiMessage) :
    Bool × Nat → AsgiMessage × (Bool × Nat)
  | (false, p) => ({ type := "http.request", body := body, more_body := false }, (true, p))
  | (true, p) => (receive p, (true, p + 1))

/-- The messages delivered by `n` successive calls of `replay_receive`
from a given state. -/
def replayCalls (body : String) (receive : Nat → AsgiMessage) :
    Nat → Bool × Nat → List AsgiMessage
  | 0, _ => []
  | n + 1, st =>
    (replay_receive body receive st).1 ::
      replayCalls body receive n (replay_receive body receive st).2

/-- Total body bytes carried by a list of ASGI messages. -/
def totalBody : List AsgiMessage → String
  | [] => ""
  | m :: ms => m.body ++ totalBody ms

/-! ## Helper lemmas: digits and ISO dates -/

lemma digitChar_digVal (c : Char) (h : c.isDigit = true) : digitChar (digVal c) = c := by
  simp [Char.isDigit] at h
  have h1 : 48 ≤ c.toNat := h.1
  have h48 : 48 + (c.toNat - 48) = c.toNat := by omega
  rw [digitChar, digVal, h48, Char.ofNat_toNat]

lemma digVal_lt (c : Char) (h : c.isDigit = true) : digVal c < 10 := by
  simp [Char.isDigit] at h
  have h2 : c.toNat ≤ 57 := h.2
  rw [digVal]; omega

/-- A string accepted by `PyDate.fromisoformat` is reproduced verbatim by
`PyDate.isoformat` on the parsed date: the canonical `YYYY-MM-DD`
calendar-date format round-trips. -/
lemma fromisoformat_isoformat (s : String) (d : PyDate)
    (h : PyDate.fromisoformat s = Except.ok d) : d.isoformat = s := by
  obtain ⟨cs⟩ := s
  unfold PyDate.fromisoformat at h
  simp only [String.toList] at h
  split at h
  case h_2 => exact absurd h (by simp)
  case h_1 y1 y2 y3 y4 m1 m2 d1 d2 =>
    split at h
    case isFalse => exact absurd h (by simp)
    case isTrue hdig =>
      split at h
      case isFalse => exact absurd h (by simp)
      case isTrue hrange =>
        simp only [Except.ok.injEq] at h
        subst h
        simp only [Bool.and_eq_true] at hdig
        obtain ⟨⟨⟨⟨⟨⟨⟨hy1, hy2⟩, hy3⟩, hy4⟩, hm1⟩, hm2⟩, hd1⟩, hd2⟩ := hdig
        have ly1 := digVal_lt y1 hy1
        have ly2 := digVal_lt y2 hy2
        have ly3 := digVal_lt y3 hy3
        have ly4 := digVal_lt y4 hy4
        have lm1 := digVal_lt m1 hm1
        have lm2 := digVal_lt m2 hm2
        have ld1 := digVal_lt d1 hd1
        have ld2 := digVal_lt d2 hd2
        unfold PyDate.isoformat
        simp only
        congr 1
        have e1 : (((digVal y1 * 10 + digVal y2) * 10 + digVal y3) * 10 + digVal y4) / 1000 % 10 = digVal y1 := by omega
        have e2 : (((digVal y1 * 10 + digVal y2) * 10 + digVal y3) * 10 + digVal y4) / 100 % 10 = digVal y2 := by omega
        have e3 : (((digVal y1 * 10 + digVal y2) * 10 + digVal y3) * 10 + digVal y4) / 10 % 10 = digVal y3 := by omega
        have e4 : (((digVal y1 * 10 + digVal y2) * 10 + digVal y3) * 10 + digVal y4) % 10 = digVal y4 := by omega
        have e5 : (digVal m1 * 10 + digVal m2) / 10 % 10 = digVal m1 := by omega
        have e6 : (digVal m1 * 10 + digVal m2) % 10 = digVal m2 := by omega
        have e7 : (digVal d1 * 10 + digVal d2) / 10 % 10 = digVal d1 := by omega
        have e8 : (digVal d1 * 10 + digVal d2) % 10 = digVal d2 := by omega
        rw [e1, e2, e3, e4, e5, e6, e7, e8,
          digitChar_digVal y1 hy1, digitChar_digVal y2 hy2, digitChar_digVal y3 hy3,
          digitChar_digVal y4 hy4, digitChar_digVal m1 hm1, digitChar_digVal m2 hm2,
          digitChar_digVal d1 hd1, digitChar_digVal d2 hd2]

/-! ## Claim C7 -/

/-- C7: a malformed date string supplied to the historical-weather tool
fails at the tool's boundary as a `ModelRetry` (correctable retry
feedback) and no outbound archive request is issued; for well-formed
inputs the outbound query carries the start and end dates as the literal
ISO `YYYY-MM-DD` calendar-date strings (no time-of-day or offset). -/
theorem historical_tool_date_boundary (lat lon : Rat) (tz : String)
    (sdS edS : String) (resp : HttpOutcome WeatherBody) :
    (((∃ e, PyDate.fromisoformat sdS = Except.error e) ∨
        (∃ e, PyDate.fromisoformat edS = Except.error e)) →
      (get_historical_weather_data lat lon tz sdS edS resp).1 = [] ∧
      ∃ msg, (get_historical_weather_data lat lon tz sdS edS resp).2 =
        ToolResult.modelRetry msg) ∧
    (∀ sd ed, PyDate.fromisoformat sdS = Except.ok sd →
      PyDate.fromisoformat edS = Except.ok ed →
      ∃ q, (get_historical_weather_data lat lon tz sdS edS resp).1 = [q] ∧
        q.start_date = sdS ∧ q.end_date = edS) := by
  constructor
  · intro hbad
    unfold get_historical_weather_data
    rcases hbad with ⟨e, he⟩ | ⟨e, he⟩
    · rw [he]
      exact ⟨rfl, _, rfl⟩
    · cases hs : PyDate.fromisoformat sdS with
      | error e2 => exact ⟨rfl, _, rfl⟩
      | ok sd => rw [he]; exact ⟨rfl, _, rfl⟩
  · intro sd ed hsd hed
    unfold get_historical_weather_data
    rw [hsd, hed]
    unfold get_historical_weather
    refine ⟨⟨lat, lon, tz, DAILY_PARAMS, HOURLY_PARAMS, sd.isoformat, ed.isoformat⟩, ?_, ?_, ?_⟩
    · cases h : parseWeatherOutcome resp tz with
      | error e => cases e <;> rfl
      | ok w => rfl
    · exact fromisoformat_isoformat sdS sd hsd
    · exact fromisoformat_isoformat edS ed hed

/-- Witness for C7: the Scenario-C range 2024-01-01..2024-01-31 produces
exactly one outbound archive query carrying those literal date strings. -/
theorem historical_tool_date_boundary_witness :
    ∃ q, (get_historical_weather_data 0 0 "UTC" "2024-01-01" "2024-01-31"
        (HttpOutcome.netError "connection refused")).1 = [q] ∧
      q.start_date = "2024-01-01" ∧ q.end_date = "2024-01-31" :=
  (historical_tool_date_boundary 0 0 "UTC" "2024-01-01" "2024-01-31"
      (HttpOutcome.netError "connection refused")).2
    ⟨2024, 1, 1⟩ ⟨2024, 1, 31⟩ rfl rfl

/-! ## Claim C2 -/

/-- C2: with a classifier that returns an off-topic verdict on every call,
the guarded Responder run terminates after exactly `OUTPUT_RETRIES + 1 = 3`
draft attempts, its outcome is the terminal `exhausted` hard failure, and
no draft is ever surfaced as approved. -/
theorem output_guard_retry_termination (classify : String → TopicCheck)
    (hoff : ∀ s, (classify s).is_weather_related = false) (draft : Nat → String) :
    (runOutputGuard draft classify).2 = OUTPUT_RETRIES + 1 ∧
    (runOutputGuard draft classify).1.isExhausted = true ∧
    ∀ s, (runOutputGuard draft classify).1 ≠ GuardOutcome.approved s := by
  unfold runOutputGuard OUTPUT_RETRIES
  simp [runGuardAux, validate_weather_topic, hoff, GuardOutcome.isExhausted]

/-- Witness for C2 at a concrete always-off-topic classifier. -/
theorem output_guard_retry_termination_witness :
    (runOutputGuard (fun n => toString n) (fun _ => ⟨false, "not weather"⟩)).2 = OUTPUT_RETRIES + 1 ∧
    (runOutputGuard (fun n => toString n) (fun _ => ⟨false, "not weather"⟩)).1.isExhausted = true ∧
    ∀ s, (runOutputGuard (fun n => toString n) (fun _ => ⟨false, "not weather"⟩)).1 ≠
      GuardOutcome.approved s :=
  output_guard_retry_termination (fun _ => ⟨false, "not weather"⟩) (fun _ => rfl)
    (fun n => toString n)

/-! ## Claim C6 -/

/-- C6: a geocoding response whose result set is absent or empty yields the
non-exceptional not-found value `Except.ok none`; a network error or a
non-2xx response instead raises a transport failure, and in particular
never yields the not-found value. -/
theorem geocode_not_found_vs_transport (b : GeoBody) (st : Nat) (e : String) :
    ((b.results = none ∨ b.results = some []) → 200 ≤ st → st < 300 →
      geocode (HttpOutcome.response st b) = Except.ok none) ∧
    (¬(200 ≤ st ∧ st < 300) →
      geocode (HttpOutcome.response st b) =
        Except.error (SvcError.transport "HTTPStatusError")) ∧
    geocode (HttpOutcome.netError e) = Except.error (SvcError.transport e) ∧
    ∀ r, geocode (HttpOutcome.netError e) ≠ Except.ok r := by
  refine ⟨?_, ?_, rfl, fun r => by simp [geocode]⟩
  · intro hres h1 h2
    rcases hres with h | h <;> simp [geocode, raise_for_status, h, h1, h2]
  · intro hbad
    simp [geocode, raise_for_status]
    rw [if_neg hbad]

/-- Witness for C6: an empty result set on a 200 response is not-found; a
404 response is a transport failure. -/
theorem geocode_not_found_vs_transport_witness :
    geocode (HttpOutcome.response 200 ⟨some []⟩) = Except.ok none ∧
    geocode (HttpOutcome.response 404 ⟨some []⟩) =
      Except.error (SvcError.transport "HTTPStatusError") :=
  ⟨(geocode_not_found_vs_transport ⟨some []⟩ 200 "").1 (Or.inr rfl) (by omega) (by omega),
   (geocode_not_found_vs_transport ⟨some []⟩ 404 "").2.1 (by omega)⟩

/-! ## Claim C10 -/

lemma parseWeatherOutcome_ok_timezone (st : Nat) (body : WeatherBody) (tz : String)
    (w : WeatherResponse)
    (hok : parseWeatherOutcome (HttpOutcome.response st body) tz = Except.ok w) :
    w.timezone = body.timezone.getD tz := by
  simp only [parseWeatherOutcome] at hok
  split at hok
  · exact absurd hok (by simp)
  · split at hok
    · exact absurd hok (by simp)
    · split at hok
      · exact absurd hok (by simp)
      · simp only [Except.ok.injEq] at hok
        subst hok
        rfl

/-- C10: timezone defaulting. When the first geocoding candidate omits the
timezone field, the returned location's timezone is `"UTC"`; when a
forecast or archive response body omits the timezone, the returned
`WeatherResponse` carries the caller-supplied request timezone. -/
theorem timezone_defaulting (r : GeoItem) (rest : List GeoItem) (st : Nat)
    (body : WeatherBody) (tz : String) :
    (200 ≤ st → st < 300 → r.timezone = none →
      ∃ loc, geocode (HttpOutcome.response st ⟨some (r :: rest)⟩) = Except.ok (some loc) ∧
        loc.timezone = "UTC") ∧
    (∀ w, body.timezone = none →
      get_forecast (HttpOutcome.response st body) tz = Except.ok w → w.timezone = tz) ∧
    (∀ w lat lon sd ed, body.timezone = none →
      (get_historical_weather lat lon tz sd ed (HttpOutcome.response st body)).2 =
        Except.ok w → w.timezone = tz) := by
  refine ⟨?_, ?_, ?_⟩
  · intro h1 h2 htz
    refine ⟨⟨r.latitude, r.longitude, "UTC", r.name, r.country⟩, ?_, rfl⟩
    simp [geocode, raise_for_status, h1, h2, htz]
  · intro w htz hok
    have := parseWeatherOutcome_ok_timezone st body tz w hok
    rw [this, htz]
    rfl
  · intro w lat lon sd ed htz hok
    have := parseWeatherOutcome_ok_timezone st body tz w hok
    rw [this, htz]
    rfl

/-- Witness for C10 at concrete inputs: a geocoding result without a
timezone yields `"UTC"`, and a forecast body without one yields the
request timezone. -/
theorem timezone_defaulting_witness :
    (∃ loc, geocode (HttpOutcome.response 200
        ⟨some [⟨1, 2, none, "Copenhagen", some "Denmark"⟩]⟩) = Except.ok (some loc) ∧
      loc.timezone = "UTC") ∧
    ∀ w, get_forecast (HttpOutcome.response 200 ⟨1, 2, none, none, none⟩) "Europe/Copenhagen" =
      Except.ok w → w.timezone = "Europe/Copenhagen" :=
  ⟨(timezone_defaulting ⟨1, 2, none, "Copenhagen", some "Denmark"⟩ [] 200
      ⟨1, 2, none, none, none⟩ "Europe/Copenhagen").1 (by omega) (by omega) rfl,
   fun w => (timezone_defaulting ⟨1, 2, none, "Copenhagen", some "Denmark"⟩ [] 200
      ⟨1, 2, none, none, none⟩ "Europe/Copenhagen").2.1 w rfl⟩

/-! ## Claim C4 -/

lemma extractFromReversed_append_nonuser (l rest : List MsgEntry)
    (h : ∀ e ∈ l, ∃ m2, e = MsgEntry.msg m2 ∧ m2.role ≠ some "user") :
    extractFromReversed (l ++ rest) = extractFromReversed rest := by
  induction l with
  | nil => rfl
  | cons a l ih =>
    obtain ⟨m2, rfl, hrole⟩ := h a (by simp)
    simp only [List.cons_append, extractFromReversed, if_neg hrole]
    exact ih (fun e he => h e (by simp [he]))

/-- C4 counterexample: a most recent user message holding two text
fragments `"a"` and `"b"` extracts to `"a"` — the first fragment — not to
the concatenation `"ab"` the claim requires. -/
theorem extract_concat_counterexample :
    extract_last_user_text (some (BodyJson.dict (MessagesVal.seq
      [MsgEntry.msg ⟨some "user", PartsVal.seq
        [PartEntry.part ⟨some "text", some "a"⟩,
         PartEntry.part ⟨some "text", some "b"⟩]⟩]))) = Except.ok (some "a") ∧
    some "a" ≠ some ("a" ++ "b") :=
  ⟨rfl, by decide⟩

/-- C4 (amended): for a message list with user and assistant turns,
extraction returns the text of the first text fragment of the most recent
user-tagged message (not the concatenation of its fragments), provided
that message has a text fragment; earlier turns and later non-user
object turns do not affect the result. -/
theorem extract_last_user_first_fragment (pre post : List MsgEntry)
    (m : ChatMessage) (items : List PartEntry) (t : String)
    (hpost : ∀ e ∈ post, ∃ m2, e = MsgEntry.msg m2 ∧ m2.role ≠ some "user")
    (hm : m.role = some "user") (hparts : m.parts = PartsVal.seq items)
    (ht : firstTextPart items = Except.ok (some t)) :
    extract_last_user_text (some (BodyJson.dict (MessagesVal.seq
      (pre ++ MsgEntry.msg m :: post)))) = Except.ok (some t) := by
  unfold extract_last_user_text
  simp only [List.reverse_append, List.reverse_cons]
  have hrev : ∀ e ∈ post.reverse, ∃ m2, e = MsgEntry.msg m2 ∧ m2.role ≠ some "user" := by
    intro e he
    exact hpost e (List.mem_reverse.mp he)
  rw [List.append_assoc, List.singleton_append,
    extractFromReversed_append_nonuser post.reverse (MsgEntry.msg m :: pre.reverse) hrev]
  simp [extractFromReversed, hm, hparts, ht]

/-- Witness for the amended C4: with an earlier user turn, an assistant
reply after the latest user message, and a latest user message holding two
fragments, extraction returns that message's first fragment only. -/
theorem extract_last_user_first_fragment_witness :
    extract_last_user_text (some (BodyJson.dict (MessagesVal.seq
      [MsgEntry.msg ⟨some "user", PartsVal.seq [PartEntry.part ⟨some "text", some "old question"⟩]⟩,
       MsgEntry.msg ⟨some "assistant", PartsVal.seq [PartEntry.part ⟨some "text", some "old answer"⟩]⟩,
       MsgEntry.msg ⟨some "user", PartsVal.seq [PartEntry.part ⟨some "text", some "latest"⟩,
         PartEntry.part ⟨some "text", some "extra"⟩]⟩,
       MsgEntry.msg ⟨some "assistant", PartsVal.seq [PartEntry.part ⟨some "text", some "newest answer"⟩]⟩]))) =
      Except.ok (some "latest") :=
  extract_last_user_first_fragment
    [MsgEntry.msg ⟨some "user", PartsVal.seq [PartEntry.part ⟨some "text", some "old question"⟩]⟩,
     MsgEntry.msg ⟨some "assistant", PartsVal.seq [PartEntry.part ⟨some "text", some "old answer"⟩]⟩]
    [MsgEntry.msg ⟨some "assistant", PartsVal.seq [PartEntry.part ⟨some "text", some "newest answer"⟩]⟩]
    ⟨some "user", PartsVal.seq [PartEntry.part ⟨some "text", some "latest"⟩,
      PartEntry.part ⟨some "text", some "extra"⟩]⟩
    [PartEntry.part ⟨some "text", some "latest"⟩, PartEntry.part ⟨some "text", some "extra"⟩]
    "latest"
    (by intro e he
        simp only [List.mem_singleton] at he
        exact ⟨⟨some "assistant", PartsVal.seq [PartEntry.part ⟨some "text", some "newest answer"⟩]⟩,
          he, by decide⟩)
    rfl rfl rfl

/-! ## Claim C8 -/

/-- C8 counterexample: a valid-JSON body whose `messages` list holds a
non-object entry — the decoded form of `\x7b"messages": [42]\x7d` — makes
`msg.get` raise `AttributeError`, which neither `extract_last_user_text`
nor `_handle_chat` catches: the middleware crashes instead of passing the
request through, refuting the claim that every request without
extractable user text is passed through unmodified. -/
theorem input_guard_crash_counterexample :
    handle_chat (fun _ => some (BodyJson.dict (MessagesVal.seq [MsgEntry.junk])))
      (fun _ => Except.ok ⟨true, "ok"⟩) "id"
      [⟨"http.request", "\x7b\"messages\": [42]\x7d", false⟩] =
      ChatOutcome.crashed "AttributeError" ∧
    ChatOutcome.crashed "AttributeError" ≠
      ChatOutcome.passedThrough "\x7b\"messages\": [42]\x7d" :=
  ⟨rfl, by decide⟩

/-- C8 (amended): the input guard fails open wherever extraction
completes — a body that is not valid JSON or whose traversal hits a
caught `TypeError` (extraction returns `None`), a request with no or
empty user text, and a raising guard-agent call all pass the original
buffered body through to the inner Responder app — but when extraction
raises `AttributeError` (a valid-JSON body with a non-object top level,
message entry, or part entry) the exception escapes the middleware and
the request is neither refused nor passed through. -/
theorem input_guard_fail_open (decode : String → Option BodyJson)
    (classify : String → Except String TopicCheck) (msg_id : String)
    (frames : List AsgiMessage) :
    (extract_last_user_text (decode (bufferBody frames)) = Except.ok none →
      handle_chat decode classify msg_id frames =
        ChatOutcome.passedThrough (bufferBody frames)) ∧
    (extract_last_user_text (decode (bufferBody frames)) = Except.ok (some "") →
      handle_chat decode classify msg_id frames =
        ChatOutcome.passedThrough (bufferBody frames)) ∧
    (∀ t e, extract_last_user_text (decode (bufferBody frames)) = Except.ok (some t) →
      classify ("Is this user question about weather, climate, or atmospheric conditions?\n\n" ++ t) =
        Except.error e →
      handle_chat decode classify msg_id frames =
        ChatOutcome.passedThrough (bufferBody frames)) ∧
    (∀ e, extract_last_user_text (decode (bufferBody frames)) = Except.error e →
      handle_chat decode classify msg_id frames = ChatOutcome.crashed e) := by
  refine ⟨?_, ?_, ?_, ?_⟩
  · intro hext
    simp [handle_chat, hext]
  · intro hext
    simp [handle_chat, hext]
  · intro t e hext hcls
    by_cases ht : t = ""
    · subst ht
      simp [handle_chat, hext]
    · simp [handle_chat, hext, ht, hcls]
  · intro e hext
    simp [handle_chat, hext]

/-- Witness for the amended C8: an unparsable body passes through, a
request whose guard-agent call raises passes through, and a valid-JSON
body with a non-object message entry crashes. -/
theorem input_guard_fail_open_witness :
    handle_chat (fun _ => none) (fun _ => Except.error "boom") "id"
      [⟨"http.request", "not json", false⟩] =
      ChatOutcome.passedThrough "not json" ∧
    handle_chat
      (fun _ => some (BodyJson.dict (MessagesVal.seq
        [MsgEntry.msg ⟨some "user", PartsVal.seq [PartEntry.part ⟨some "text", some "hi"⟩]⟩])))
      (fun _ => Except.error "connection reset") "id"
      [⟨"http.request", "x", false⟩] =
      ChatOutcome.passedThrough "x" ∧
    handle_chat (fun _ => some BodyJson.nonDict) (fun _ => Except.error "boom") "id"
      [⟨"http.request", "[1, 2]", false⟩] =
      ChatOutcome.crashed "AttributeError" :=
  ⟨(input_guard_fail_open (fun _ => none) (fun _ => Except.error "boom") "id"
      [⟨"http.request", "not json", false⟩]).1 rfl,
   (input_guard_fail_open
      (fun _ => some (BodyJson.dict (MessagesVal.seq
        [MsgEntry.msg ⟨some "user", PartsVal.seq [PartEntry.part ⟨some "text", some "hi"⟩]⟩])))
      (fun _ => Except.error "connection reset") "id"
      [⟨"http.request", "x", false⟩]).2.2.1 "hi" "connection reset" rfl rfl,
   (input_guard_fail_open (fun _ => some BodyJson.nonDict) (fun _ => Except.error "boom") "id"
      [⟨"http.request", "[1, 2]", false⟩]).2.2.2 "AttributeError" rfl⟩

/-! ## Claim C9 -/

lemma replayCalls_after_body (body : String) (receive : Nat → AsgiMessage) :
    ∀ (k p : Nat), replayCalls body receive k (true, p) =
      (List.range k).map (fun j => receive (p + j)) := by
  intro k
  induction k with
  | zero => intro p; rfl
  | succ n ih =>
    intro p
    simp only [replayCalls, replay_receive, List.range_succ_eq_map, List.map_cons,
      Nat.add_zero, List.map_map, ih (p + 1)]
    congr 1
    apply List.map_congr_left
    intro j hj
    simp only [Function.comp_apply]
    congr 1
    omega

/-- C9: the replay receive function delivers the buffered body exactly
once. For any positive number of reads, the first call yields one
`http.request` message carrying the full buffered body with `more_body`
false, every later call delegates to the underlying (already drained)
receive, and — whenever the drained stream carries no body bytes — the
total body bytes observed by the inner stage equal the original body,
regardless of how many times it reads. -/
theorem replay_body_exactly_once (body : String) (receive : Nat → AsgiMessage)
    (n : Nat) (hn : 0 < n) :
    replayCalls body receive n (false, 0) =
      { type := "http.request", body := body, more_body := false } ::
        (List.range (n - 1)).map receive ∧
    ((∀ i, (receive i).body = "") →
      totalBody (replayCalls body receive n (false, 0)) = body) := by
  obtain ⟨m, rfl⟩ : ∃ m, n = m + 1 := ⟨n - 1, by omega⟩
  have hcalls : replayCalls body receive (m + 1) (false, 0) =
      { type := "http.request", body := body, more_body := false } ::
        (List.range m).map (fun j => receive (0 + j)) := by
    simp only [replayCalls, replay_receive]
    rw [replayCalls_after_body]
  constructor
  · simpa using hcalls
  · intro hdrained
    rw [hcalls]
    simp only [totalBody]
    have : ∀ l : List Nat, totalBody (l.map (fun j => receive (0 + j))) = "" := by
      intro l
      induction l with
      | nil => rfl
      | cons a l ih =>
        simp only [List.map_cons, totalBody, ih, hdrained (0 + a)]
        rfl
    rw [this]
    exact String.append_empty body

/-- Witness for C9: three reads of a concrete replayed body observe the
body once, then the drained disconnect messages. -/
theorem replay_body_exactly_once_witness :
    replayCalls "hello" (fun _ => ⟨"http.disconnect", "", false⟩) 3 (false, 0) =
      { type := "http.request", body := "hello", more_body := false } ::
        (List.range 2).map (fun _ => ⟨"http.disconnect", "", false⟩) ∧
    totalBody (replayCalls "hello" (fun _ => ⟨"http.disconnect", "", false⟩) 3 (false, 0)) =
      "hello" :=
  ⟨(replay_body_exactly_once "hello" (fun _ => ⟨"http.disconnect", "", false⟩) 3
      (by decide)).1,
   (replay_body_exactly_once "hello" (fun _ => ⟨"http.disconnect", "", false⟩) 3
      (by decide)).2 (fun _ => rfl)⟩

/-! ## Claim C3 -/

lemma jsonEscapeChar_id (c : Char) (h1 : 32 ≤ c.toNat) (h2 : c.toNat ≤ 126)
    (h3 : c ≠ '"') (h4 : c ≠ '\\') : jsonEscapeChar c = [c] := by
  have hn : c ≠ '\n' := by intro h; subst h; exact absurd h1 (by decide)
  have htb : c ≠ '\t' := by intro h; subst h; exact absurd h1 (by decide)
  have hrr : c ≠ '\r' := by intro h; subst h; exact absurd h1 (by decide)
  have hbs : c ≠ '\x08' := by intro h; subst h; exact absurd h1 (by decide)
  have hff : c ≠ '\x0c' := by intro h; subst h; exact absurd h1 (by decide)
  have hbig : ¬((decide (c.toNat < 32) || decide (126 < c.toNat)) = true) := by
    simp
    omega
  simp only [jsonEscapeChar, if_neg h3, if_neg h4, if_neg hn, if_neg htb, if_neg hrr,
    if_neg hbs, if_neg hff, if_neg hbig]

lemma flatMap_escape_id (l : List Char)
    (h : ∀ c ∈ l, 32 ≤ c.toNat ∧ c.toNat ≤ 126 ∧ c ≠ '"' ∧ c ≠ '\\') :
    l.flatMap jsonEscapeChar = l := by
  induction l with
  | nil => rfl
  | cons a l ih =>
    obtain ⟨h1, h2, h3, h4⟩ := h a (by simp)
    simp only [List.flatMap_cons, jsonEscapeChar_id a h1 h2 h3 h4]
    rw [ih (fun c hc => h c (by simp [hc]))]
    rfl

set_option maxRecDepth 8192 in
/-- The fixed refusal text is invariant under `json.dumps` escaping: its
serialized form is the text verbatim between double quotes. -/
lemma jsonStr_refusal : jsonStr REFUSAL_MESSAGE = "\"" ++ REFUSAL_MESSAGE ++ "\"" := by
  have hchars : ∀ c ∈ REFUSAL_MESSAGE.toList,
      32 ≤ c.toNat ∧ c.toNat ≤ 126 ∧ c ≠ '"' ∧ c ≠ '\\' := by decide
  unfold jsonStr
  rw [flatMap_escape_id _ hchars]
  cases hr : REFUSAL_MESSAGE
  rfl

/-- C3: for a chat request whose extracted last user text is non-empty
and classified off-topic, the middleware refuses without invoking the
inner app: it sends the SSE response start and one body holding
`build_refusal_sse` of the fixed refusal message, and that body's event
stream is the complete eight-event sequence — stream start, step start,
text-start, one text-delta carrying the fixed refusal text verbatim,
text-end, step end, finish, and the terminal `[DONE]` sentinel. -/
theorem input_guard_short_circuit (decode : String → Option BodyJson)
    (classify : String → Except String TopicCheck) (msg_id : String)
    (frames : List AsgiMessage) (t : String) (check : TopicCheck)
    (hext : extract_last_user_text (decode (bufferBody frames)) = Except.ok (some t))
    (hne : t ≠ "")
    (hcls : classify ("Is this user question about weather, climate, or atmospheric conditions?\n\n" ++ t) =
      Except.ok check)
    (hoff : check.is_weather_related = false) :
    handle_chat decode classify msg_id frames =
      ChatOutcome.refused
        [SendEvent.responseStart 200 sseHeaders,
         SendEvent.responseBody (build_refusal_sse msg_id REFUSAL_MESSAGE)] ∧
    build_refusal_events msg_id REFUSAL_MESSAGE =
      ["\x7b\"type\":\"start\"\x7d",
       "\x7b\"type\":\"start-step\"\x7d",
       "\x7b\"type\": \"text-start\", \"id\": " ++ jsonStr msg_id ++ "\x7d",
       "\x7b\"type\": \"text-delta\", \"id\": " ++ jsonStr msg_id ++ ", \"delta\": " ++
         ("\"" ++ REFUSAL_MESSAGE ++ "\"") ++ "\x7d",
       "\x7b\"type\": \"text-end\", \"id\": " ++ jsonStr msg_id ++ "\x7d",
       "\x7b\"type\":\"finish-step\"\x7d",
       "\x7b\"type\":\"finish\",\"finishReason\":\"stop\"\x7d",
       "[DONE]"] ∧
    build_refusal_sse msg_id REFUSAL_MESSAGE =
      String.join ((build_refusal_events msg_id REFUSAL_MESSAGE).map
        (fun e => "data: " ++ e ++ "\n\n")) := by
  refine ⟨?_, ?_, rfl⟩
  · simp [handle_chat, hext, hne, hcls, hoff]
  · simp only [build_refusal_events]
    rw [jsonStr_refusal]

/-- Witness for C3: a concrete off-topic request is refused with the
fixed event stream. -/
theorem input_guard_short_circuit_witness :
    handle_chat
      (fun _ => some (BodyJson.dict (MessagesVal.seq
        [MsgEntry.msg ⟨some "user", PartsVal.seq
          [PartEntry.part ⟨some "text", some "capital of France?"⟩]⟩])))
      (fun _ => Except.ok ⟨false, "geography, not weather"⟩) "id-1"
      [⟨"http.request", "ignored", false⟩] =
      ChatOutcome.refused
        [SendEvent.responseStart 200 sseHeaders,
         SendEvent.responseBody (build_refusal_sse "id-1" REFUSAL_MESSAGE)] :=
  (input_guard_short_circuit
    (fun _ => some (BodyJson.dict (MessagesVal.seq
      [MsgEntry.msg ⟨some "user", PartsVal.seq
        [PartEntry.part ⟨some "text", some "capital of France?"⟩]⟩])))
    (fun _ => Except.ok ⟨false, "geography, not weather"⟩) "id-1"
    [⟨"http.request", "ignored", false⟩] "capital of France?" ⟨false, "geography, not weather"⟩
    rfl (by decide) rfl rfl).1

/-! ## Claims C1 and C5: columnar parser lemmas -/

lemma _get_at_spec (data : RawCols) (key : String) (i : Nat) :
    _get_at data key i =
      match data key with
      | some col => if i < col.length then col.getD i JVal.null else JVal.null
      | none => JVal.null := by
  unfold _get_at
  cases hk : data key with
  | none => rfl
  | some col =>
    by_cases h : i < col.length
    · simp [h, List.getD_eq_getElem, List.get_eq_getElem]
    · simp [h]

lemma parse_daily_rows_ok_cons (raw : RawCols) (d : JVal) (rest : List JVal) (i : Nat)
    (rows : List DailyWeather) (h : parse_daily_rows raw (d :: rest) i = Except.ok rows) :
    ∃ dt rows2, parseDateVal d = Except.ok dt ∧
      parse_daily_rows raw rest (i + 1) = Except.ok rows2 ∧
      rows =
        { date := dt
          temperature_2m_max := _get_at raw "temperature_2m_max" i
          temperature_2m_min := _get_at raw "temperature_2m_min" i
          sunrise := _get_at raw "sunrise" i
          sunset := _get_at raw "sunset" i
          sunshine_duration := _get_at raw "sunshine_duration" i
          daylight_duration := _get_at raw "daylight_duration" i
          wind_speed_10m_max := _get_at raw "wind_speed_10m_max" i
          precipitation_sum := _get_at raw "precipitation_sum" i
          weather_code := _get_at raw "weather_code" i } :: rows2 := by
  simp only [parse_daily_rows] at h
  split at h
  · exact absurd h (by simp)
  · rename_i dt hdt
    split at h
    · exact absurd h (by simp)
    · rename_i rows2 hrows2
      simp only [Except.ok.injEq] at h
      exact ⟨dt, rows2, hdt, hrows2, h.symm⟩

lemma parse_daily_rows_length (raw : RawCols) :
    ∀ (l : List JVal) (i : Nat) (rows : List DailyWeather),
      parse_daily_rows raw l i = Except.ok rows → rows.length = l.length := by
  intro l
  induction l with
  | nil =>
    intro i rows h
    simp only [parse_daily_rows, Except.ok.injEq] at h
    subst h
    rfl
  | cons d rest ih =>
    intro i rows h
    obtain ⟨dt, rows2, hdt, hrec, rfl⟩ := parse_daily_rows_ok_cons raw d rest i rows h
    simp [ih (i + 1) rows2 hrec]

lemma parse_daily_rows_field (raw : RawCols) (f : DailyField) :
    ∀ (l : List JVal) (i : Nat) (rows : List DailyWeather),
      parse_daily_rows raw l i = Except.ok rows →
      ∀ (j : Nat) (hj : j < rows.length),
        (rows.get ⟨j, hj⟩).field f = _get_at raw (DailyField.key f) (i + j) := by
  intro l
  induction l with
  | nil =>
    intro i rows h j hj
    simp only [parse_daily_rows, Except.ok.injEq] at h
    subst h
    exact absurd hj (by simp)
  | cons d rest ih =>
    intro i rows h j hj
    obtain ⟨dt, rows2, hdt, hrec, rfl⟩ := parse_daily_rows_ok_cons raw d rest i rows h
    cases j with
    | zero => cases f <;> rfl
    | succ j2 =>
      have hj2 : j2 < rows2.length := by simpa using hj
      have hrw := ih (i + 1) rows2 hrec j2 hj2
      simp only [List.get_eq_getElem, List.getElem_cons_succ] at hrw ⊢
      rw [hrw]
      congr 1
      omega

lemma parse_daily_rows_ok_iff (raw : RawCols) :
    ∀ (l : List JVal) (i : Nat),
      (∃ rows, parse_daily_rows raw l i = Except.ok rows) ↔
        ∀ v ∈ l, ∃ d, parseDateVal v = Except.ok d := by
  intro l
  induction l with
  | nil => intro i; simp [parse_daily_rows]
  | cons d rest ih =>
    intro i
    constructor
    · rintro ⟨rows, h⟩ v hv
      obtain ⟨dt, rows2, hdt, hrec, rfl⟩ := parse_daily_rows_ok_cons raw d rest i rows h
      rcases List.mem_cons.mp hv with rfl | hv2
      · exact ⟨dt, hdt⟩
      · exact ((ih (i + 1)).mp ⟨rows2, hrec⟩) v hv2
    · intro hall
      obtain ⟨dt, hdt⟩ := hall d (by simp)
      obtain ⟨rows2, hrec⟩ := (ih (i + 1)).mpr (fun v hv => hall v (by simp [hv]))
      refine ⟨{ date := dt
                temperature_2m_max := _get_at raw "temperature_2m_max" i
                temperature_2m_min := _get_at raw "temperature_2m_min" i
                sunrise := _get_at raw "sunrise" i
                sunset := _get_at raw "sunset" i
                sunshine_duration := _get_at raw "sunshine_duration" i
                daylight_duration := _get_at raw "daylight_duration" i
                wind_speed_10m_max := _get_at raw "wind_speed_10m_max" i
                precipitation_sum := _get_at raw "precipitation_sum" i
                weather_code := _get_at raw "weather_code" i } :: rows2, ?_⟩
      simp [parse_daily_rows, hdt, hrec]

lemma parse_hourly_rows_ok_cons (raw : RawCols) (t : JVal) (rest : List JVal) (i : Nat)
    (rows : List HourlyWeather) (h : parse_hourly_rows raw (t :: rest) i = Except.ok rows) :
    ∃ tm rows2, parseDateTimeVal t = Except.ok tm ∧
      parse_hourly_rows raw rest (i + 1) = Except.ok rows2 ∧
      rows =
        { time := tm
          temperature_2m := _get_at raw "temperature_2m" i
          wind_speed_10m := _get_at raw "wind_speed_10m" i
          precipitation := _get_at raw "precipitation" i
          weather_code := _get_at raw "weather_code" i
          is_day := _get_at raw "is_day" i } :: rows2 := by
  simp only [parse_hourly_rows] at h
  split at h
  · exact absurd h (by simp)
  · rename_i tm htm
    split at h
    · exact absurd h (by simp)
    · rename_i rows2 hrows2
      simp only [Except.ok.injEq] at h
      exact ⟨tm, rows2, htm, hrows2, h.symm⟩

lemma parse_hourly_rows_length (raw : RawCols) :
    ∀ (l : List JVal) (i : Nat) (rows : List HourlyWeather),
      parse_hourly_rows raw l i = Except.ok rows → rows.length = l.length := by
  intro l
  induction l with
  | nil =>
    intro i rows h
    simp only [parse_hourly_rows, Except.ok.injEq] at h
    subst h
    rfl
  | cons t rest ih =>
    intro i rows h
    obtain ⟨tm, rows2, htm, hrec, rfl⟩ := parse_hourly_rows_ok_cons raw t rest i rows h
    simp [ih (i + 1) rows2 hrec]

lemma parse_hourly_rows_field (raw : RawCols) (f : HourlyField) :
    ∀ (l : List JVal) (i : Nat) (rows : List HourlyWeather),
      parse_hourly_rows raw l i = Except.ok rows →
      ∀ (j : Nat) (hj : j < rows.length),
        (rows.get ⟨j, hj⟩).field f = _get_at raw (HourlyField.key f) (i + j) := by
  intro l
  induction l with
  | nil =>
    intro i rows h j hj
    simp only [parse_hourly_rows, Except.ok.injEq] at h
    subst h
    exact absurd hj (by simp)
  | cons t rest ih =>
    intro i rows h j hj
    obtain ⟨tm, rows2, htm, hrec, rfl⟩ := parse_hourly_rows_ok_cons raw t rest i rows h
    cases j with
    | zero => cases f <;> rfl
    | succ j2 =>
      have hj2 : j2 < rows2.length := by simpa using hj
      have hrw := ih (i + 1) rows2 hrec j2 hj2
      simp only [List.get_eq_getElem, List.getElem_cons_succ] at hrw ⊢
      rw [hrw]
      congr 1
      omega

lemma parse_hourly_rows_ok_iff (raw : RawCols) :
    ∀ (l : List JVal) (i : Nat),
      (∃ rows, parse_hourly_rows raw l i = Except.ok rows) ↔
        ∀ v ∈ l, ∃ tm, parseDateTimeVal v = Except.ok tm := by
  intro l
  induction l with
  | nil => intro i; simp [parse_hourly_rows]
  | cons t rest ih =>
    intro i
    constructor
    · rintro ⟨rows, h⟩ v hv
      obtain ⟨tm, rows2, htm, hrec, rfl⟩ := parse_hourly_rows_ok_cons raw t rest i rows h
      rcases List.mem_cons.mp hv with rfl | hv2
      · exact ⟨tm, htm⟩
      · exact ((ih (i + 1)).mp ⟨rows2, hrec⟩) v hv2
    · intro hall
      obtain ⟨tm, htm⟩ := hall t (by simp)
      obtain ⟨rows2, hrec⟩ := (ih (i + 1)).mpr (fun v hv => hall v (by simp [hv]))
      refine ⟨{ time := tm
                temperature_2m := _get_at raw "temperature_2m" i
                wind_speed_10m := _get_at raw "wind_speed_10m" i
                precipitation := _get_at raw "precipitation" i
                weather_code := _get_at raw "weather_code" i
                is_day := _get_at raw "is_day" i } :: rows2, ?_⟩
      simp [parse_hourly_rows, htm, hrec]

/-- C1: columnar parse totality. For any payload whose parse succeeds, the
parser returns exactly one record per `time` entry, and each known field
of record `i` equals the field column's entry at `i` when that column
exists and reaches index `i`, and is null otherwise; an absent or empty
time array yields the empty record list. -/
theorem columnar_parse_totality (raw : RawCols) :
    (∀ rows, parse_daily_data raw = Except.ok rows →
      rows.length = ((raw "time").getD []).length ∧
      ∀ (f : DailyField) (i : Nat) (hi : i < rows.length),
        (rows.get ⟨i, hi⟩).field f =
          (match raw (DailyField.key f) with
           | some col => if i < col.length then col.getD i JVal.null else JVal.null
           | none => JVal.null)) ∧
    (∀ rows, parse_hourly_data raw = Except.ok rows →
      rows.length = ((raw "time").getD []).length ∧
      ∀ (f : HourlyField) (i : Nat) (hi : i < rows.length),
        (rows.get ⟨i, hi⟩).field f =
          (match raw (HourlyField.key f) with
           | some col => if i < col.length then col.getD i JVal.null else JVal.null
           | none => JVal.null)) ∧
    ((raw "time" = none ∨ raw "time" = some []) →
      parse_daily_data raw = Except.ok [] ∧ parse_hourly_data raw = Except.ok []) := by
  refine ⟨?_, ?_, ?_⟩
  · intro rows hrows
    simp only [parse_daily_data] at hrows
    split at hrows
    · rename_i hemp
      simp only [Except.ok.injEq] at hrows
      subst hrows
      rw [List.isEmpty_iff] at hemp
      constructor
      · simp [hemp]
      · intro f i hi
        exact absurd hi (by simp)
    · constructor
      · exact parse_daily_rows_length raw _ 0 rows hrows
      · intro f i hi
        have hf := parse_daily_rows_field raw f _ 0 rows hrows i hi
        rw [Nat.zero_add] at hf
        rw [hf, _get_at_spec]
  · intro rows hrows
    simp only [parse_hourly_data] at hrows
    split at hrows
    · rename_i hemp
      simp only [Except.ok.injEq] at hrows
      subst hrows
      rw [List.isEmpty_iff] at hemp
      constructor
      · simp [hemp]
      · intro f i hi
        exact absurd hi (by simp)
    · constructor
      · exact parse_hourly_rows_length raw _ 0 rows hrows
      · intro f i hi
        have hf := parse_hourly_rows_field raw f _ 0 rows hrows i hi
        rw [Nat.zero_add] at hf
        rw [hf, _get_at_spec]
  · intro htime
    rcases htime with h | h <;>
      exact ⟨by simp [parse_daily_data, h], by simp [parse_hourly_data, h]⟩

/-- A concrete daily payload (Scenario B shape): two dates, one
measurement column, all other columns absent. -/
def sampleDaily : RawCols := fun k =>
  if k = "time" then some [JVal.str "2025-01-15", JVal.str "2025-01-16"]
  else if k = "temperature_2m_max" then some [JVal.num 5, JVal.num 6]
  else none

/-- The rows `parse_daily_data` produces on `sampleDaily`. -/
def sampleDailyRows : List DailyWeather :=
  [{ date := ⟨2025, 1, 15⟩
     temperature_2m_max := JVal.num 5
     temperature_2m_min := JVal.null
     sunrise := JVal.null
     sunset := JVal.null
     sunshine_duration := JVal.null
     daylight_duration := JVal.null
     wind_speed_10m_max := JVal.null
     precipitation_sum := JVal.null
     weather_code := JVal.null },
   { date := ⟨2025, 1, 16⟩
     temperature_2m_max := JVal.num 6
     temperature_2m_min := JVal.null
     sunrise := JVal.null
     sunset := JVal.null
     sunshine_duration := JVal.null
     daylight_duration := JVal.null
     wind_speed_10m_max := JVal.null
     precipitation_sum := JVal.null
     weather_code := JVal.null }]

/-- Witness for C1 on `sampleDaily`: two records, the listed column
projected at each index, an unlisted column null. -/
theorem columnar_parse_totality_witness :
    parse_daily_data sampleDaily = Except.ok sampleDailyRows ∧
    sampleDailyRows.length = ((sampleDaily "time").getD []).length ∧
    (sampleDailyRows.get ⟨1, by decide⟩).field DailyField.temperature_2m_max = JVal.num 6 ∧
    (sampleDailyRows.get ⟨1, by decide⟩).field DailyField.sunrise = JVal.null := by
  have hrows : parse_daily_data sampleDaily = Except.ok sampleDailyRows := by rfl
  refine ⟨hrows, ((columnar_parse_totality sampleDaily).1 sampleDailyRows hrows).1, ?_, ?_⟩
  · rw [((columnar_parse_totality sampleDaily).1 sampleDailyRows hrows).2
      DailyField.temperature_2m_max 1 (by decide)]
    rfl
  · rw [((columnar_parse_totality sampleDaily).1 sampleDailyRows hrows).2
      DailyField.sunrise 1 (by decide)]
    rfl

/-- C5: parser shape-safety. Success of the parsers depends only on the
entries of the time array being structurally valid — the shapes of the
measurement columns can never cause a failure — and a measurement column
shorter than the time array resolves its missing tail indices to null
rather than an out-of-bounds failure. -/
theorem parser_shape_safety (raw : RawCols) :
    ((∃ rows, parse_daily_data raw = Except.ok rows) ↔
      ∀ v ∈ (raw "time").getD [], ∃ d, parseDateVal v = Except.ok d) ∧
    ((∃ rows, parse_hourly_data raw = Except.ok rows) ↔
      ∀ v ∈ (raw "time").getD [], ∃ tm, parseDateTimeVal v = Except.ok tm) ∧
    (∀ rows (f : DailyField) (i : Nat) col,
      parse_daily_data raw = Except.ok rows →
      ∀ hi : i < rows.length, raw (DailyField.key f) = some col → col.length ≤ i →
        (rows.get ⟨i, hi⟩).field f = JVal.null) ∧
    (∀ rows (f : HourlyField) (i : Nat) col,
      parse_hourly_data raw = Except.ok rows →
      ∀ hi : i < rows.length, raw (HourlyField.key f) = some col → col.length ≤ i →
        (rows.get ⟨i, hi⟩).field f = JVal.null) := by
  refine ⟨?_, ?_, ?_, ?_⟩
  · by_cases hemp : ((raw "time").getD []).isEmpty
    · rw [List.isEmpty_iff] at hemp
      constructor
      · intro _ v hv
        rw [hemp] at hv
        exact absurd hv (by simp)
      · intro _
        exact ⟨[], by simp [parse_daily_data, hemp]⟩
    · have hunf : parse_daily_data raw = parse_daily_rows raw ((raw "time").getD []) 0 := by
        simp only [parse_daily_data]
        rw [if_neg hemp]
      rw [hunf]
      exact parse_daily_rows_ok_iff raw _ 0
  · by_cases hemp : ((raw "time").getD []).isEmpty
    · rw [List.isEmpty_iff] at hemp
      constructor
      · intro _ v hv
        rw [hemp] at hv
        exact absurd hv (by simp)
      · intro _
        exact ⟨[], by simp [parse_hourly_data, hemp]⟩
    · have hunf : parse_hourly_data raw = parse_hourly_rows raw ((raw "time").getD []) 0 := by
        simp only [parse_hourly_data]
        rw [if_neg hemp]
      rw [hunf]
      exact parse_hourly_rows_ok_iff raw _ 0
  · intro rows f i col hrows hi hcol hlen
    simp only [parse_daily_data] at hrows
    split at hrows
    · simp only [Except.ok.injEq] at hrows
      subst hrows
      exact absurd hi (by simp)
    · have hf := parse_daily_rows_field raw f _ 0 rows hrows i hi
      rw [Nat.zero_add] at hf
      rw [hf, _get_at_spec, hcol]
      have hnlt : ¬ i < col.length := by omega
      simp [hnlt]
  · intro rows f i col hrows hi hcol hlen
    simp only [parse_hourly_data] at hrows
    split at hrows
    · simp only [Except.ok.injEq] at hrows
      subst hrows
      exact absurd hi (by simp)
    · have hf := parse_hourly_rows_field raw f _ 0 rows hrows i hi
      rw [Nat.zero_add] at hf
      rw [hf, _get_at_spec, hcol]
      have hnlt : ¬ i < col.length := by omega
      simp [hnlt]

/-- A concrete daily payload whose `precipitation_sum` column is shorter
than its time array. -/
def sampleShort : RawCols := fun k =>
  if k = "time" then some [JVal.str "2024-02-29", JVal.str "2024-03-01"]
  else if k = "precipitation_sum" then some [JVal.num 3]
  else none

/-- The rows `parse_daily_data` produces on `sampleShort`. -/
def sampleShortRows : List DailyWeather :=
  [{ date := ⟨2024, 2, 29⟩
     temperature_2m_max := JVal.null
     temperature_2m_min := JVal.null
     sunrise := JVal.null
     sunset := JVal.null
     sunshine_duration := JVal.null
     daylight_duration := JVal.null
     wind_speed_10m_max := JVal.null
     precipitation_sum := JVal.num 3
     weather_code := JVal.null },
   { date := ⟨2024, 3, 1⟩
     temperature_2m_max := JVal.null
     temperature_2m_min := JVal.null
     sunrise := JVal.null
     sunset := JVal.null
     sunshine_duration := JVal.null
     daylight_duration := JVal.null
     wind_speed_10m_max := JVal.null
     precipitation_sum := JVal.null
     weather_code := JVal.null }]

/-- Witness for C5 on `sampleShort`: the parse succeeds despite the short
measurement column, and the tail index past the column's end is null. -/
theorem parser_shape_safety_witness :
    (∃ rows, parse_daily_data sampleShort = Except.ok rows) ∧
    (sampleShortRows.get ⟨1, by decide⟩).field DailyField.precipitation_sum = JVal.null := by
  constructor
  · refine (parser_shape_safety sampleShort).1.mpr ?_
    intro v hv
    simp [sampleShort] at hv
    rcases hv with rfl | rfl
    · exact ⟨⟨2024, 2, 29⟩, rfl⟩
    · exact ⟨⟨2024, 3, 1⟩, rfl⟩
  · exact (parser_shape_safety sampleShort).2.2.1 sampleShortRows
      DailyField.precipitation_sum 1 [JVal.num 3] rfl (by decide) rfl (by decide)

end WeatherBot
